import Mathlib

set_option linter.unusedVariables false

/-!
Shallow embedding of the run-orchestration core of the repository
(backend/app/tasks.py, backend/app/services/proxmox_service.py,
backend/app/api/endpoints/test_runs.py), together with theorems checking
the natural-language specification against it.

Conventions of the embedding:
* timestamps are integers (seconds); machine clock values are passed in as
  explicit parameters;
* fallible code is modelled with `Except` / explicit escape values;
* database rows are plain structures; bookkeeping columns (`id`,
  `test_run_id`, `created_at`) that no statement here depends on are
  omitted from the row structures.
-/

/-- A persisted test-case result row (backend/app/models.py, class
`TestCaseResult`).  `duration_seconds` is a Float column in the schema;
the values written by the code are either an opaque wall-clock measurement
or exactly 0, so it is modelled as an integer supplied by the clock. -/
structure TestCaseResult where
  category : String
  test_name : String
  status : String
  duration_seconds : Int
  message : String
  logs : Option String
deriving Repr, DecidableEq

/-- A test-run row (backend/app/models.py, class `TestRun`). -/
structure TestRun where
  status : String
  overall_status : Option String
  start_time : Option Int
  end_time : Option Int
  duration_seconds : Option Int
  celery_task_id : Option String
deriving Repr, DecidableEq

/-- Final status aggregation of run_mcp_tests_task (backend/app/tasks.py,
lines 60-82), expressed over the list of `TestCaseResult` rows of the run:
count of rows with status in (fail, error); if positive the overall status
is "fail"; otherwise if all rows (and at least one) are "skipped" it is
"skipped"; otherwise if some row is "pass" it is "pass"; otherwise
"completed". -/
def overall_status_of_results (results : List TestCaseResult) : String :=
  if results.countP (fun r => r.status == "fail" || r.status == "error") > 0 then "fail"
  else if results.countP (fun r => r.status == "skipped") = results.length ∧ 0 < results.length then
    "skipped"
  else if results.countP (fun r => r.status == "pass") > 0 then "pass"
  else "completed"

/-- Modelled from the spec: the Status Aggregator precedence of spec
section 4.4, first match wins — any fail/error gives "fail"; a non-empty
all-skipped list gives "skipped"; any pass gives "pass"; otherwise
"completed".  Written from the spec text, to be compared with
`overall_status_of_results`, which is written from the code. -/
def spec_aggregate (results : List TestCaseResult) : String :=
  if ∃ r ∈ results, r.status = "fail" ∨ r.status = "error" then "fail"
  else if results ≠ [] ∧ ∀ r ∈ results, r.status = "skipped" then "skipped"
  else if ∃ r ∈ results, r.status = "pass" then "pass"
  else "completed"

/-- Outcome of awaiting a test-case thunk inside `_execute_test_case`
(backend/app/services/proxmox_service.py, lines 217-260):
* `retDict success message data error`: the awaited call returned a dict;
  `success` is the truthiness of `result.get('success', False)`; the other
  three components are the `message` / `data` / `error` entries, with
  `none` standing for an absent (or falsy, for `data` / `error`, which the
  code tests with a plain `if`) entry; a present `data` entry is carried as
  its `str(...)` printed form;
* `retNonDict printed`: the call returned a non-dict value whose `str`
  form is `printed`;
* `raises msg trace`: the call raised; `msg` is `str(e)` and `trace` is
  `traceback.format_exc()`. -/
inductive ThunkOutcome where
  | retDict (success : Bool) (message : Option String) (data : Option String)
      (error : Option String)
  | retNonDict (printed : String)
  | raises (msg : String) (trace : String)
deriving Repr, DecidableEq

/-- The `_execute_test_case` executor (backend/app/services/proxmox_service.py,
lines 217-260).  `hasApi` is whether `self.proxmox_api` is non-None; the
thunk's behaviour is the `outcome` argument and `duration` is the wall-clock
measurement taken around the call.  Returns the persisted `TestCaseResult`
row together with the boolean return value `status == "pass"`. -/
def execute_test_case (hasApi : Bool) (category test_name : String)
    (outcome : ThunkOutcome) (duration : Int) : TestCaseResult × Bool :=
  let smd : String × String × String :=
    if !hasApi && test_name != "Proxmox Connection" then
      ("error",
       "Proxmox API client not initialized. Connection likely failed during service setup.",
       "")
    else
      match outcome with
      | .retDict success msg data err =>
        if success then
          ("pass", msg.getD "Test executed successfully.",
           match data with
           | some d => "Data: " ++ d.take 1500 ++ "\n"
           | none => "")
        else
          ("fail", msg.getD "Test failed as per custom logic.",
           match err with
           | some e => "Error Details: " ++ e ++ "\n"
           | none => "")
      | .retNonDict printed =>
        ("error", "Test function returned an unexpected result type.",
         "Unexpected result: " ++ printed ++ "\n")
      | .raises m t =>
        ("error", "Exception: " ++ m, "Traceback: " ++ t ++ "\n")
  let result : TestCaseResult :=
    { category := category, test_name := test_name, status := smd.1,
      duration_seconds := duration, message := smd.2.1,
      logs := if smd.2.2 = "" then none else some smd.2.2.trim }
  (result, smd.1 == "pass")

/-- The `_skip_test_case` helper (backend/app/services/proxmox_service.py,
lines 325-332): a "skipped" row with duration 0, the reason as message and
no logs; the thunk is never touched. -/
def skip_test_case (category test_name reason : String) : TestCaseResult :=
  { category := category, test_name := test_name, status := "skipped",
    duration_seconds := 0, message := reason, logs := none }

/-- A resource registered in `self.created_resources_for_cleanup`
(backend/app/services/proxmox_service.py).  The entries are Python dicts:
a VM is registered as `type = "vm", node, id (the integer VMID, carried
here in its printed form), name` (line 353); a snapshot as
`type = "snapshot", node, vmid, id (the snapshot name), name` (line 366).
`vmid` is only present on snapshot entries. -/
structure ManagedResource where
  type : String
  node : String
  id : String
  name : String
  vmid : Option Nat := none
deriving Repr, DecidableEq

/-- The Python sort key of `cleanup_created_resources_phase` (line 386):
`key = (type != 'snapshot', type != 'vm')` with `False < True`, encoded as
a natural number (lexicographic order on the boolean pair coincides with
the numeric order of `2*fst + snd` because `snd` is 0 or 1): snapshots get
1, VMs get 2, every other kind gets 3. -/
def cleanup_sort_key (r : ManagedResource) : Nat :=
  (if r.type = "snapshot" then 0 else 2) + (if r.type = "vm" then 0 else 1)

/-- Stable insertion of one element into a key-sorted list: the element is
placed before the first entry whose key is not smaller. -/
def stable_insert_by_key (k : ManagedResource → Nat) (x : ManagedResource) :
    List ManagedResource → List ManagedResource
  | [] => [x]
  | y :: ys => if k x ≤ k y then x :: y :: ys else y :: stable_insert_by_key k x ys

/-- Stable sort by key.  Python's `list.sort` is a stable sort, and the
output of a stable sort is uniquely determined by the key, so this
insertion sort computes exactly the list `list.sort(key=...)` produces. -/
def py_stable_sort (k : ManagedResource → Nat) : List ManagedResource → List ManagedResource
  | [] => []
  | x :: xs => stable_insert_by_key k x (py_stable_sort k xs)

/-- The order in which `cleanup_created_resources_phase`
(backend/app/services/proxmox_service.py, lines 379-415) issues deletions:
the registry is first sorted in place with `cleanup_sort_key` (line 386)
and the deletion loop then iterates `reversed(...)` over it (line 389). -/
def cleanup_deletion_order (registry : List ManagedResource) : List ManagedResource :=
  (py_stable_sort cleanup_sort_key registry).reverse

/-- The per-resource test name used by the cleanup loop (line 395), an
f-string interpolating the capitalized kind, the name, the id and the
node.  (`String.capitalize` agrees with Python's `str.capitalize` on the
all-lowercase kind strings used here.) -/
def cleanup_test_name (r : ManagedResource) : String :=
  "Delete " ++ r.type.capitalize ++ " \x27" ++ r.name ++ "\x27 (ID/Name: " ++
    r.id ++ ") on " ++ r.node

/-- The `cleanup_action` closure (lines 397-410) as a thunk outcome: the
mock deletion calls succeed for the resources the run registered, so a VM
or snapshot entry yields a success dict and any other kind yields the
`success: False` dict with the "Unknown resource type" message. -/
def cleanup_action (r : ManagedResource) : ThunkOutcome :=
  if r.type = "vm" then
    .retDict true (some ("VM " ++ r.name ++ " deleted.")) none none
  else if r.type = "snapshot" then
    .retDict true
      (some ("Snapshot " ++ r.name ++ " for VM " ++ toString (r.vmid.getD 0) ++ " deleted."))
      none none
  else
    .retDict false (some ("Unknown resource type \"" ++ r.type ++ "\" for cleanup.")) none none

/-- A test configuration row (backend/app/models.py, class
`TestConfiguration`), restricted to the columns the orchestration core
reads: the nested `selected_tests` JSON object (category, then test name,
then enabled flag), the target node, the first VMID of the configured
range, and the two flags. -/
structure TestConfiguration where
  selected_tests : List (String × List (String × Bool))
  target_node : String
  vm_id_range_start : Nat
  enable_destructive_tests : Bool
  cleanup_resources : Bool
deriving Repr, DecidableEq

/-- The lookup `selected_tests_map.get(category, empty-dict).get(name, False)`
used throughout `run_selected_tests`. -/
def selected_test (cfg : TestConfiguration) (category name : String) : Bool :=
  match cfg.selected_tests.find? (fun p => p.1 == category) with
  | none => false
  | some (_, tests) =>
    match tests.find? (fun p => p.1 == name) with
    | none => false
    | some (_, enabled) => enabled

/-- The `run_selected_tests` driver (backend/app/services/proxmox_service.py,
lines 263-323), reduced to the rows it persists and the thunks it invokes.

* `hasApi`: whether `self.proxmox_api` is non-None.  When it is None the
  method records one synthetic "Setup" / "Proxmox Connection" case and
  returns (lines 267-270).  The thunk passed there (line 269) is a plain
  non-async lambda returning a dict, and `_execute_test_case` awaits its
  result; awaiting a dict raises TypeError, so the recorded outcome is the
  raise branch with that exception text (`tb` is the captured traceback).
* `thunkOf` maps a case's test name to the behaviour of its thunk, and
  `durOf` to the wall-clock duration measured around it.
* `snap_stamp` is the `int(time.time())` stamp of line 301.
* `registry` is `self.created_resources_for_cleanup` as it stands when the
  cleanup branch of line 320 runs; its accumulation inside the create
  thunks is not tracked here.

The first component of the result is the ordered list of persisted
`TestCaseResult` rows; the second lists the test names whose thunk was
actually invoked (a skipped case records a row without any invocation). -/
def run_selected_tests (hasApi : Bool) (cfg : TestConfiguration)
    (thunkOf : String → ThunkOutcome) (durOf : String → Int) (tb : String)
    (snap_stamp : Nat) (registry : List ManagedResource) :
    List TestCaseResult × List String :=
  if !hasApi then
    ([(execute_test_case false "Setup" "Proxmox Connection"
        (.raises "object dict can\x27t be used in \x27await\x27 expression" tb)
        (durOf "Proxmox Connection")).1],
     ["Proxmox Connection"])
  else
    let test_vmid := cfg.vm_id_range_start
    let vm_name := "mcp-test-" ++ toString test_vmid
    let snap_name := "testsnap-" ++ toString snap_stamp
    let execStep : String → String → ThunkOutcome → TestCaseResult × Option String :=
      fun cat name outcome =>
        ((execute_test_case true cat name outcome (durOf name)).1, some name)
    let steps : List (TestCaseResult × Option String) :=
      (if selected_test cfg "Resource Discovery" "List Resources" then
        [execStep "Resource Discovery" "List Resources" (thunkOf "List Resources")]
       else [])
      ++ (if selected_test cfg "VM Management" "Create VM" then
            (if cfg.enable_destructive_tests then
              [execStep "VM Management" ("Create VM " ++ vm_name)
                (thunkOf ("Create VM " ++ vm_name))]
             else
              [(skip_test_case "VM Management" ("Create VM " ++ vm_name)
                  "Destructive test disabled.", none)])
          else [])
      ++ (if selected_test cfg "VM Management" "Get VM Status" &&
            cfg.enable_destructive_tests then
            [execStep "VM Management" ("Get VM Status " ++ vm_name)
              (thunkOf ("Get VM Status " ++ vm_name))]
          else [])
      ++ (if selected_test cfg "Snapshot Management" "Create Snapshot" &&
            cfg.enable_destructive_tests then
            [execStep "Snapshot Management"
              ("Create Snapshot " ++ snap_name ++ " for VM " ++ vm_name)
              (thunkOf ("Create Snapshot " ++ snap_name ++ " for VM " ++ vm_name))]
          else [])
      ++ (if selected_test cfg "Snapshot Management" "List Snapshots" &&
            cfg.enable_destructive_tests then
            [execStep "Snapshot Management" ("List Snapshots for VM " ++ vm_name)
              (thunkOf ("List Snapshots for VM " ++ vm_name))]
          else [])
      ++ (if selected_test cfg "Storage Management" "List Storage" then
            [execStep "Storage Management" "List Storage on Node"
              (thunkOf "List Storage on Node")]
          else [])
      ++ (if cfg.enable_destructive_tests && cfg.cleanup_resources then
            (cleanup_deletion_order registry).map (fun r =>
              execStep "Cleanup" (cleanup_test_name r) (cleanup_action r))
          else [])
    (steps.map Prod.fst, steps.filterMap Prod.snd)

/-- Outcome of the body of the Celery task between the start transition and
the final-status computation (service construction, configuration checks
and `run_selected_tests`): either it returned and `results` are the
`TestCaseResult` rows now stored for the run, or an exception with text
`e` escaped it (for example the `ValueError` of backend/app/tasks.py line
44 when the run has no configuration). -/
inductive TaskBody where
  | ok (results : List TestCaseResult)
  | raised (e : String)
deriving Repr, DecidableEq

/-- Observable outcome of one invocation of the Celery task: the committed
run row, the extra `TestCaseResult` rows the task itself added, and the
text of an exception escaping the task invocation, if any. -/
structure TaskFinal where
  run : TestRun
  extraCases : List TestCaseResult
  escaped : Option String
deriving Repr, DecidableEq

/-- The start segment of `run_mcp_tests_task` (backend/app/tasks.py, lines
30-39): a run already flagged "cancelled" is returned untouched; any other
run — whatever its status — is set to "running" with the Celery task id
and `start_time = now` recorded and committed. -/
def task_start (now : Int) (task_id : String) (run : TestRun) : TestRun :=
  if run.status = "cancelled" then run
  else { run with
          status := "running"
          celery_task_id := some task_id
          start_time := some now }

/-- The `run_mcp_tests_task` Celery task (backend/app/tasks.py, lines
21-115) for a run that was found in the database, with the middle section
abstracted as `body`:

* a run flagged "cancelled" returns early (lines 30-33);
* otherwise the run is started (`task_start`) and, when `body` returns,
  the overall status is aggregated from the stored rows and the run is
  marked "completed" (lines 60-82);
* when `body` raises, the except block (lines 86-106) sets
  `status = "failed"` and `overall_status = "error"` and then evaluates
  `models.TestCaseResult` — but tasks.py imports `TestCaseResult` directly
  and never binds the name `models`, so this raises NameError: the
  "System Error" row is never constructed or added, and the NameError
  escapes the task invocation;
* the `finally` block (lines 107-114) runs on every path, including the
  early return and the escaping NameError: when `start_time` is set it
  stamps `end_time = endNow` and `duration_seconds = endNow - start_time`
  before committing. -/
def run_mcp_tests_task (now endNow : Int) (task_id : String) (run : TestRun)
    (body : TaskBody) : TaskFinal :=
  let inner : TestRun × List TestCaseResult × Option String :=
    if run.status = "cancelled" then (run, [], none)
    else
      let run1 := task_start now task_id run
      match body with
      | .ok results =>
        ({ run1 with
            overall_status := some (overall_status_of_results results)
            status := "completed" }, [], none)
      | .raised _ =>
        ({ run1 with status := "failed", overall_status := some "error" }, [],
         some "NameError: name \x27models\x27 is not defined")
  match inner.1.start_time with
  | some s =>
    ⟨{ inner.1 with end_time := some endNow, duration_seconds := some (endNow - s) },
     inner.2.1, inner.2.2⟩
  | none => ⟨inner.1, inner.2.1, inner.2.2⟩

/-- The statuses in which a run may be cancelled
(backend/app/api/endpoints/test_runs.py, line 200). -/
def cancellable_statuses : List String := ["pending", "queued", "running"]

/-- The `cancel_test_run` endpoint (backend/app/api/endpoints/test_runs.py,
lines 185-218) for a run found in the database: a run whose status is not
cancellable is rejected with an HTTP 400 detail message and left untouched;
otherwise status and overall_status are set to "cancelled", `end_time` is
set to `now` if it was unset, `duration_seconds` is recomputed when both
timestamps are present, and the success message is returned. -/
def cancel_test_run (now : Int) (run : TestRun) : Except String String × TestRun :=
  if run.status ∈ cancellable_statuses then
    let run1 := { run with status := "cancelled", overall_status := some "cancelled" }
    let run2 := match run1.end_time with
      | none => { run1 with end_time := some now }
      | some _ => run1
    let run3 := match run2.start_time, run2.end_time with
      | some s, some e => { run2 with duration_seconds := some (e - s) }
      | _, _ => run2
    (Except.ok
      "Test run cancellation request processed. Actual termination depends on task state and responsiveness.",
     run3)
  else
    (Except.error ("Cannot cancel test run in \x27" ++ run.status ++ "\x27 state."), run)

/-- A VM resource registered first, as by `test_create_vm` (line 353). -/
def vm_v1 : ManagedResource :=
  { type := "vm", node := "pve1", id := "9000", name := "v1" }

/-- A snapshot of that VM registered second, as by `test_create_snapshot`
(line 366). -/
def snap_s1 : ManagedResource :=
  { type := "snapshot", node := "pve1", id := "s1-of-v1", name := "s1-of-v1",
    vmid := some 9000 }

/-- A thunk-behaviour map used for concrete instances: every thunk returns
a bare success dict. -/
def thunk_all_pass : String → ThunkOutcome := fun _ => .retDict true none none none

/-- A duration map used for concrete instances: every measured duration is 0. -/
def dur_zero : String → Int := fun _ => 0

/-- A freshly queued run row. -/
def queued_run : TestRun :=
  { status := "queued", overall_status := none, start_time := none,
    end_time := none, duration_seconds := none, celery_task_id := none }

/-- A finished run row with status "completed". -/
def completed_run : TestRun :=
  { status := "completed", overall_status := some "pass", start_time := some 100,
    end_time := some 160, duration_seconds := some 60, celery_task_id := some "t-1" }

/-- A run row currently in status "running". -/
def running_run : TestRun :=
  { status := "running", overall_status := none, start_time := some 100,
    end_time := none, duration_seconds := none, celery_task_id := some "t-2" }

/-- A run row flagged "cancelled" before the worker picked it up. -/
def cancelled_run : TestRun :=
  { status := "cancelled", overall_status := some "cancelled", start_time := none,
    end_time := some 90, duration_seconds := none, celery_task_id := some "t-3" }

/-- A configuration selecting only the destructive "Create VM" case. -/
def cfg_create_vm_only : TestConfiguration :=
  { selected_tests := [("VM Management", [("Create VM", true)])],
    target_node := "pve1", vm_id_range_start := 9000,
    enable_destructive_tests := false, cleanup_resources := true }

/-- A configuration selecting only the destructive-gated "Get VM Status"
case, with destructive tests disabled. -/
def cfg_get_vm_status_only : TestConfiguration :=
  { selected_tests := [("VM Management", [("Get VM Status", true)])],
    target_node := "pve1", vm_id_range_start := 9000,
    enable_destructive_tests := false, cleanup_resources := true }

/-- A configuration used for the connection-failure scenario. -/
def cfg_list_resources : TestConfiguration :=
  { selected_tests := [("Resource Discovery", [("List Resources", true)])],
    target_node := "pve1", vm_id_range_start := 9000,
    enable_destructive_tests := true, cleanup_resources := true }

/-- C1: for every list of case results, the overall status computed by the
task (count-based, backend/app/tasks.py lines 60-82) equals the first-match
precedence stated by the spec: fail/error present gives fail; otherwise a
non-empty all-skipped list gives skipped; otherwise any pass gives pass;
otherwise (including the empty list) completed. -/
theorem c1_overall_status_matches_spec_precedence (results : List TestCaseResult) :
    overall_status_of_results results = spec_aggregate results := by
  have h1 : (results.countP (fun r => r.status == "fail" || r.status == "error") > 0) ↔
      (∃ r ∈ results, r.status = "fail" ∨ r.status = "error") := by
    rw [gt_iff_lt, List.countP_pos_iff]
    simp
  have h2 : (results.countP (fun r => r.status == "skipped") = results.length ∧
      0 < results.length) ↔ (results ≠ [] ∧ ∀ r ∈ results, r.status = "skipped") := by
    rw [List.countP_eq_length, List.length_pos, and_comm]
    simp
  have h3 : (results.countP (fun r => r.status == "pass") > 0) ↔
      (∃ r ∈ results, r.status = "pass") := by
    rw [gt_iff_lt, List.countP_pos_iff]
    simp
  simp only [overall_status_of_results, spec_aggregate]
  exact if_congr h1 rfl (if_congr h2 rfl (if_congr h3 rfl rfl))

/-- Helper: appending to a non-empty string never yields the empty string. -/
theorem string_append_ne_empty (a b : String) (h : a ≠ "") : a ++ b ≠ "" := by
  intro hc
  apply h
  obtain ⟨la⟩ := a
  obtain ⟨lb⟩ := b
  have hd := congrArg String.data hc
  simp only [String.data_append] at hd
  have : la = [] := (List.append_eq_nil.mp hd).1
  simp [this]

/-- C2: the cleanup phase is claimed to delete the snapshot strictly before
its parent VM for the registry [VM v1, snapshot s1-of-v1].  The code sorts
snapshots first (line 386) but then iterates the sorted registry with
`reversed(...)` (line 389), so the VM deletion is issued first: the
deletion order for that registry is [v1, s1], contradicting both the claim
and the code's own "snapshots before VMs" sort comment. -/
theorem c2_cleanup_deletes_vm_before_its_snapshot :
    vm_v1.type = "vm" ∧ snap_s1.type = "snapshot" ∧
    cleanup_deletion_order [vm_v1, snap_s1] = [vm_v1, snap_s1] :=
  ⟨rfl, rfl, rfl⟩

/-- C3: counterexample to the claim as stated — when connecting to the
target fails, the run records the single synthetic Setup case but the task
then finishes it with status "completed" (and overall_status "fail"), not
with status "failed" as the claim asserts. -/
theorem c3_connect_failure_run_not_marked_failed :
    (run_mcp_tests_task 100 105 "tid" queued_run
      (.ok (run_selected_tests false cfg_list_resources thunk_all_pass dur_zero
        "tb" 0 []).1)).run.status = "completed" ∧
    ¬ (run_mcp_tests_task 100 105 "tid" queued_run
      (.ok (run_selected_tests false cfg_list_resources thunk_all_pass dur_zero
        "tb" 0 []).1)).run.status = "failed" := by
  refine ⟨rfl, ?_⟩
  decide

/-- C3 (amended): for every run whose connection to the target failed, the
suite records exactly one synthetic CaseResult with category "Setup" and
status "error" (the awaited non-async lambda raises TypeError inside the
executor), records no CaseResult for any configured case, and the task then
finishes the run with status "completed" and overall_status "fail". -/
theorem c3_amended_connect_failure_single_setup_error_case
    (cfg : TestConfiguration) (thunkOf : String → ThunkOutcome)
    (durOf : String → Int) (tb : String) (snap_stamp : Nat)
    (registry : List ManagedResource) (now endNow : Int) (task_id : String)
    (run : TestRun) (h : run.status ≠ "cancelled") :
    (run_selected_tests false cfg thunkOf durOf tb snap_stamp registry).1.length = 1 ∧
    (∀ r ∈ (run_selected_tests false cfg thunkOf durOf tb snap_stamp registry).1,
      r.category = "Setup" ∧ r.test_name = "Proxmox Connection" ∧ r.status = "error") ∧
    (run_mcp_tests_task now endNow task_id run
      (.ok (run_selected_tests false cfg thunkOf durOf tb snap_stamp registry).1)).run.status
      = "completed" ∧
    (run_mcp_tests_task now endNow task_id run
      (.ok (run_selected_tests false cfg thunkOf durOf tb snap_stamp registry).1)).run.overall_status
      = some "fail" := by
  refine ⟨rfl, ?_, ?_, ?_⟩
  · intro r hr
    simp only [run_selected_tests, Bool.not_false, if_pos, List.mem_singleton] at hr
    subst hr
    exact ⟨rfl, rfl, rfl⟩
  · simp [run_mcp_tests_task, task_start, if_neg h]
  · simp [run_mcp_tests_task, task_start, if_neg h, run_selected_tests,
      execute_test_case, overall_status_of_results]

/-- C3 (amended) witness at a concrete connection-failure run. -/
theorem c3_amended_witness :
    (run_selected_tests false cfg_list_resources thunk_all_pass dur_zero
      "tb" 0 []).1.length = 1 ∧
    (run_mcp_tests_task 100 105 "tid" queued_run
      (.ok (run_selected_tests false cfg_list_resources thunk_all_pass dur_zero
        "tb" 0 []).1)).run.status = "completed" ∧
    (run_mcp_tests_task 100 105 "tid" queued_run
      (.ok (run_selected_tests false cfg_list_resources thunk_all_pass dur_zero
        "tb" 0 []).1)).run.overall_status = some "fail" := by
  have h := c3_amended_connect_failure_single_setup_error_case cfg_list_resources
    thunk_all_pass dur_zero "tb" 0 [] 100 105 "tid" queued_run (by decide)
  exact ⟨h.1, h.2.2.1, h.2.2.2⟩

/-- C4: the claim says an exception escaping the task body is caught exactly
once and recorded as a single "System Error" CaseResult.  The code does set
status "failed", overall_status "error" and (in the finally block) end_time,
but the except handler evaluates `models.TestCaseResult` while tasks.py
never binds the name `models`, so the handler itself raises NameError: no
CaseResult is recorded and the exception escapes the task.  Evaluated here
at a concrete failing input (a queued run whose configuration lookup raises
the ValueError of tasks.py line 44). -/
theorem c4_except_handler_name_error_no_system_error_case :
    (run_mcp_tests_task 100 105 "tid" queued_run
      (.raised "TestConfiguration not found for the TestRun.")).run.status = "failed" ∧
    (run_mcp_tests_task 100 105 "tid" queued_run
      (.raised "TestConfiguration not found for the TestRun.")).run.overall_status
      = some "error" ∧
    (run_mcp_tests_task 100 105 "tid" queued_run
      (.raised "TestConfiguration not found for the TestRun.")).run.end_time = some 105 ∧
    (run_mcp_tests_task 100 105 "tid" queued_run
      (.raised "TestConfiguration not found for the TestRun.")).extraCases = [] ∧
    (run_mcp_tests_task 100 105 "tid" queued_run
      (.raised "TestConfiguration not found for the TestRun.")).escaped
      = some "NameError: name \x27models\x27 is not defined" :=
  ⟨rfl, rfl, rfl, rfl, rfl⟩

/-- C5: counterexample to the claim as stated — a run already in the
terminal status "completed" is not finalized as a no-op when the
coordinator starts on it again: the start segment only checks for the
"cancelled" flag and sets every other run, terminal or not, back to the
non-terminal status "running". -/
theorem c5_completed_run_restarted_to_running :
    completed_run.status = "completed" ∧
    (task_start 0 "t" completed_run).status = "running" :=
  ⟨rfl, rfl⟩

/-- C5 (amended): monotonicity holds only for the "cancelled" state — a run
flagged cancelled is returned untouched by the start segment and keeps
status "cancelled" through the whole task, with no extra CaseResult and no
escaping exception; runs in the other terminal states ("completed",
"failed") are set back to "running" when the coordinator starts again. -/
theorem c5_amended_cancelled_run_start_noop (now endNow : Int) (task_id : String)
    (run : TestRun) (body : TaskBody) (h : run.status = "cancelled") :
    task_start now task_id run = run ∧
    (run_mcp_tests_task now endNow task_id run body).run.status = "cancelled" ∧
    (run_mcp_tests_task now endNow task_id run body).extraCases = [] ∧
    (run_mcp_tests_task now endNow task_id run body).escaped = none := by
  refine ⟨by simp [task_start, h], ?_, ?_, ?_⟩ <;>
    rcases hst : run.start_time with _ | s <;>
      simp [run_mcp_tests_task, h, hst]

/-- C5 (amended) witness at a concrete cancelled run. -/
theorem c5_amended_witness :
    task_start 0 "t" cancelled_run = cancelled_run ∧
    (run_mcp_tests_task 0 5 "t" cancelled_run (.ok [])).run.status = "cancelled" ∧
    (run_mcp_tests_task 0 5 "t" cancelled_run (.ok [])).extraCases = [] ∧
    (run_mcp_tests_task 0 5 "t" cancelled_run (.ok [])).escaped = none := by
  have h := c5_amended_cancelled_run_start_noop 0 5 "t" cancelled_run (.ok []) rfl
  exact h

/-- C6: counterexample to the claim as stated — with destructive tests
disabled and the destructive-gated case "Get VM Status" selected, the run
records no CaseResult at all for it (and invokes no thunk): the skip is an
omission, not a recorded outcome.  Only "Create VM" has an explicit skip
branch. -/
theorem c6_selected_destructive_case_omitted_without_record :
    selected_test cfg_get_vm_status_only "VM Management" "Get VM Status" = true ∧
    cfg_get_vm_status_only.enable_destructive_tests = false ∧
    run_selected_tests true cfg_get_vm_status_only thunk_all_pass dur_zero
      "tb" 0 [] = ([], []) :=
  ⟨rfl, rfl, rfl⟩

/-- C6 (amended): with destructive tests disabled, the selected destructive
case "Create VM" (the one with an explicit skip branch) records exactly one
CaseResult with status "skipped", duration 0 and a message containing
"disabled", and no thunk is invoked; the other destructive-gated cases are
omitted without any record. -/
theorem c6_amended_create_vm_skip_recorded (node : String) (vmid : Nat) (cu : Bool)
    (thunkOf : String → ThunkOutcome) (durOf : String → Int) (tb : String)
    (snap_stamp : Nat) (registry : List ManagedResource) :
    run_selected_tests true
      { selected_tests := [("VM Management", [("Create VM", true)])],
        target_node := node, vm_id_range_start := vmid,
        enable_destructive_tests := false, cleanup_resources := cu }
      thunkOf durOf tb snap_stamp registry
      = ([skip_test_case "VM Management" ("Create VM " ++ ("mcp-test-" ++ toString vmid))
          "Destructive test disabled."], []) ∧
    (skip_test_case "VM Management" ("Create VM " ++ ("mcp-test-" ++ toString vmid))
        "Destructive test disabled.").status = "skipped" ∧
    (skip_test_case "VM Management" ("Create VM " ++ ("mcp-test-" ++ toString vmid))
        "Destructive test disabled.").duration_seconds = 0 ∧
    ∃ pre post,
      (skip_test_case "VM Management" ("Create VM " ++ ("mcp-test-" ++ toString vmid))
        "Destructive test disabled.").message = pre ++ "disabled" ++ post := by
  exact ⟨rfl, rfl, rfl, "Destructive test ", ".", rfl⟩

/-- C7: normalization contract of the executor for every invocation whose
thunk actually runs (the API client is initialized, or the case is the
synthetic connection check): a dict with success true is recorded as
"pass"; a dict with success false is recorded as "fail" with the supplied
message captured (or the code's default) and a supplied error detail
captured in the logs; a raise is recorded as "error" with the exception
text carried in the message (prefixed by the code with "Exception: ") and
the stack trace in the logs; and the boolean returned is true exactly when
the recorded status is "pass". -/
theorem c7_executor_normalization (hasApi : Bool) (category test_name : String)
    (outcome : ThunkOutcome) (duration : Int)
    (h : hasApi = true ∨ test_name = "Proxmox Connection") :
    ((execute_test_case hasApi category test_name outcome duration).2 = true ↔
      (execute_test_case hasApi category test_name outcome duration).1.status = "pass") ∧
    (∀ m d e, outcome = .retDict true m d e →
      (execute_test_case hasApi category test_name outcome duration).1.status = "pass") ∧
    (∀ m d e, outcome = .retDict false m d e →
      (execute_test_case hasApi category test_name outcome duration).1.status = "fail" ∧
      (execute_test_case hasApi category test_name outcome duration).1.message
        = m.getD "Test failed as per custom logic." ∧
      (∀ s, e = some s →
        (execute_test_case hasApi category test_name outcome duration).1.logs
          = some ("Error Details: " ++ s ++ "\n").trim) ∧
      (execute_test_case hasApi category test_name outcome duration).2 = false) ∧
    (∀ m t, outcome = .raises m t →
      (execute_test_case hasApi category test_name outcome duration).1.status = "error" ∧
      (execute_test_case hasApi category test_name outcome duration).1.message
        = "Exception: " ++ m ∧
      (execute_test_case hasApi category test_name outcome duration).1.logs
        = some ("Traceback: " ++ t ++ "\n").trim ∧
      (execute_test_case hasApi category test_name outcome duration).2 = false) := by
  have hguard : (!hasApi && test_name != "Proxmox Connection") = false := by
    rcases h with h | h <;> simp [h]
  refine ⟨?_, ?_, ?_, ?_⟩
  · cases outcome with
    | retDict success msg data err =>
      cases success <;> simp [execute_test_case, hguard]
    | retNonDict printed => simp [execute_test_case, hguard]
    | raises m t => simp [execute_test_case, hguard]
  · intro m d e ho
    subst ho
    simp [execute_test_case, hguard]
  · intro m d e ho
    subst ho
    refine ⟨by simp [execute_test_case, hguard], by simp [execute_test_case, hguard],
      ?_, by simp [execute_test_case, hguard]⟩
    intro s hs
    subst hs
    have hne : ("Error Details: " ++ s ++ "\n") ≠ "" :=
      string_append_ne_empty _ _ (string_append_ne_empty _ _ (by decide))
    simp [execute_test_case, hguard, hne]
  · intro m t ho
    subst ho
    have hne : ("Traceback: " ++ t ++ "\n") ≠ "" :=
      string_append_ne_empty _ _ (string_append_ne_empty _ _ (by decide))
    simp [execute_test_case, hguard, hne]

/-- C7 witness at a concrete failing thunk. -/
theorem c7_executor_normalization_witness :
    (execute_test_case true "Cat" "T" (.retDict false (some "m") none (some "boom")) 0).1.status
      = "fail" ∧
    (execute_test_case true "Cat" "T" (.retDict false (some "m") none (some "boom")) 0).1.message
      = "m" ∧
    (execute_test_case true "Cat" "T" (.retDict false (some "m") none (some "boom")) 0).1.logs
      = some ("Error Details: " ++ "boom" ++ "\n").trim ∧
    (execute_test_case true "Cat" "T" (.retDict false (some "m") none (some "boom")) 0).2
      = false := by
  have h := c7_executor_normalization true "Cat" "T"
    (.retDict false (some "m") none (some "boom")) 0 (Or.inl rfl)
  obtain ⟨-, -, h3, -⟩ := h
  obtain ⟨hs, hm, hl, hr⟩ := h3 (some "m") none (some "boom") rfl
  exact ⟨hs, hm, hl "boom" rfl, hr⟩

/-- C10: for every invocation whose thunk runs and returns a non-dict
value, the executor records an "error" row with the fixed message, appends
the printed value to the logs, and returns false. -/
theorem c10_executor_non_dict_result_error (hasApi : Bool)
    (category test_name printed : String) (duration : Int)
    (h : hasApi = true ∨ test_name = "Proxmox Connection") :
    (execute_test_case hasApi category test_name (.retNonDict printed) duration).1.status
      = "error" ∧
    (execute_test_case hasApi category test_name (.retNonDict printed) duration).1.message
      = "Test function returned an unexpected result type." ∧
    (execute_test_case hasApi category test_name (.retNonDict printed) duration).1.logs
      = some ("Unexpected result: " ++ printed ++ "\n").trim ∧
    (execute_test_case hasApi category test_name (.retNonDict printed) duration).2
      = false := by
  have hguard : (!hasApi && test_name != "Proxmox Connection") = false := by
    rcases h with h | h <;> simp [h]
  have hne : ("Unexpected result: " ++ printed ++ "\n") ≠ "" :=
    string_append_ne_empty _ _ (string_append_ne_empty _ _ (by decide))
  simp [execute_test_case, hguard, hne]

/-- C10 witness at a concrete non-dict return value. -/
theorem c10_executor_non_dict_result_error_witness :
    (execute_test_case true "Cat" "T" (.retNonDict "None") 0).1.status = "error" ∧
    (execute_test_case true "Cat" "T" (.retNonDict "None") 0).1.message
      = "Test function returned an unexpected result type." ∧
    (execute_test_case true "Cat" "T" (.retNonDict "None") 0).1.logs
      = some ("Unexpected result: " ++ "None" ++ "\n").trim ∧
    (execute_test_case true "Cat" "T" (.retNonDict "None") 0).2 = false :=
  c10_executor_non_dict_result_error true "Cat" "T" "None" 0 (Or.inl rfl)

/-- C8: cancelling a run whose status is not pending, queued or running is
rejected with the HTTP 400 detail message and leaves the run row entirely
unchanged. -/
theorem c8_cancel_terminal_run_rejected_unchanged (now : Int) (run : TestRun)
    (h : run.status ∉ cancellable_statuses) :
    (cancel_test_run now run).1 =
      Except.error ("Cannot cancel test run in \x27" ++ run.status ++ "\x27 state.") ∧
    (cancel_test_run now run).2 = run := by
  unfold cancel_test_run
  rw [if_neg h]
  exact ⟨rfl, rfl⟩

/-- C8 witness at a concrete completed run. -/
theorem c8_cancel_terminal_run_rejected_unchanged_witness :
    (cancel_test_run 130 completed_run).1 =
      Except.error ("Cannot cancel test run in \x27" ++ completed_run.status ++ "\x27 state.") ∧
    (cancel_test_run 130 completed_run).2 = completed_run :=
  c8_cancel_terminal_run_rejected_unchanged 130 completed_run (by decide)

/-- C9: a successful cancel of a pending, queued or running run sets both
status and overall_status to "cancelled", sets end_time (to the cancel time
when it was unset), and — under the clock-sanity facts that the run did not
start in the future and did not end before it started — records
duration_seconds = end_time - start_time as a non-negative value whenever
start_time is set. -/
theorem c9_cancel_running_run_success (now : Int) (run : TestRun)
    (h : run.status ∈ cancellable_statuses)
    (hnow : ∀ s, run.start_time = some s → s ≤ now)
    (hend : ∀ s e, run.start_time = some s → run.end_time = some e → s ≤ e) :
    (cancel_test_run now run).1 = Except.ok
      "Test run cancellation request processed. Actual termination depends on task state and responsiveness." ∧
    (cancel_test_run now run).2.status = "cancelled" ∧
    (cancel_test_run now run).2.overall_status = some "cancelled" ∧
    (cancel_test_run now run).2.end_time.isSome = true ∧
    (run.end_time = none → (cancel_test_run now run).2.end_time = some now) ∧
    (∀ s, run.start_time = some s →
      ∃ e, (cancel_test_run now run).2.end_time = some e ∧
        (cancel_test_run now run).2.duration_seconds = some (e - s) ∧ 0 ≤ e - s) := by
  unfold cancel_test_run
  rw [if_pos h]
  rcases het : run.end_time with _ | e <;> rcases hst : run.start_time with _ | s <;>
    simp [het, hst]
  · exact hnow s hst
  · exact hend s e hst het

/-- C9 witness at a concrete running run cancelled at time 130. -/
theorem c9_cancel_running_run_success_witness :
    (cancel_test_run 130 running_run).1 = Except.ok
      "Test run cancellation request processed. Actual termination depends on task state and responsiveness." ∧
    (cancel_test_run 130 running_run).2.status = "cancelled" ∧
    (cancel_test_run 130 running_run).2.overall_status = some "cancelled" ∧
    (cancel_test_run 130 running_run).2.end_time = some 130 ∧
    (cancel_test_run 130 running_run).2.duration_seconds = some 30 := by
  have h := c9_cancel_running_run_success 130 running_run (by decide)
    (by intro s hs; simp [running_run] at hs; omega)
    (by intro s e hs he; simp [running_run] at he)
  obtain ⟨h1, h2, h3, -, h5, h6⟩ := h
  have he := h5 rfl
  refine ⟨h1, h2, h3, he, ?_⟩
  obtain ⟨e, he', hd, -⟩ := h6 100 rfl
  rw [he'] at he
  cases he
  simpa using hd
